import Mathlib

/-!
Verification of the Bosch HMI display diagnostic client (bosch-hmi-coms).

Shallow embedding of the protocol engine: the two `ProtocolHelper`
implementations (the backend/browser engine in `backend/lib/protocols.js`
and the local-HID engine in `src/lib/protocols.js`), the HID frame
encoder, the transport write wrapper (`SimpleHidWrapper.write`) and the
`BoschDisplayTool` session layer.  Byte sequences are `List Nat`
(JavaScript `Buffer` contents, each element 0..255 in practice), strings
are Lean `String`, thrown exceptions are `Except String`.
-/

namespace BoschHmi

/-- JavaScript `n.toString(16)` for a natural number: lowercase hex digits,
no leading zeroes (and "0" for 0). -/
def jsHexLower (n : Nat) : String :=
  ⟨Nat.toDigits 16 n⟩

/-- JavaScript `s.padStart(2, '0')`. -/
def padStart2 (s : String) : String :=
  ⟨List.replicate (2 - s.length) '0' ++ s.data⟩

/-- JavaScript `n.toString().padStart(2, '0')` (decimal, left-padded to 2). -/
def pad2dec (n : Nat) : String :=
  padStart2 (toString n)

/-- JavaScript `b.toString(16).padStart(2, '0')`: one byte as two lowercase
hex digits. -/
def hexByteStr (b : Nat) : String :=
  padStart2 (jsHexLower b)

/-- JavaScript `bytes.map(b => b.toString(16).padStart(2, '0')).join('')`. -/
def hexJoin (l : List Nat) : String :=
  String.join (l.map hexByteStr)

/-- JavaScript `s.toUpperCase()` on the ASCII strings produced by the hex
renderers: uppercases each character. -/
def strToUpper (s : String) : String :=
  ⟨s.data.map Char.toUpper⟩

/-- JavaScript `s.includes(pat)`: substring containment test. -/
def strContainsSubstr (s pat : String) : Bool :=
  (List.range (s.data.length + 1)).any (fun i => pat.data.isPrefixOf (s.data.drop i))

/-- Node `Buffer.from(bytes).toString('ascii')`: each byte is masked to
7 bits and read as a character. -/
def bytesToAscii (l : List Nat) : String :=
  ⟨l.map (fun b => Char.ofNat (b % 128))⟩

/-- Character class `[A-Za-z0-9]` of the JavaScript regexes used by the
decoders. -/
def isAlnumChar (c : Char) : Bool :=
  (decide ('A' ≤ c) && decide (c ≤ 'Z')) ||
  (decide ('a' ≤ c) && decide (c ≤ 'z')) ||
  (decide ('0' ≤ c) && decide (c ≤ '9'))

/-! ## The backend/browser protocol engine (`backend/lib/protocols.js`) -/

namespace Backend

/-- Result record of `ProtocolHelper.parseUdsResponse` in
`backend/lib/protocols.js` (the derived flags `isPositiveResponse` and
`isNegativeResponse` are modelled as functions below). -/
structure UdsResponse where
  serviceId : Nat
  dataLength : Nat
  responseCode : Nat
  data : List Nat
  deriving DecidableEq, Repr

/-- JS `parsed.isPositiveResponse`, set to `responseCode === 0x62`. -/
def UdsResponse.isPositiveResponse (r : UdsResponse) : Bool :=
  r.responseCode == 0x62

/-- JS `parsed.isNegativeResponse`, set to `responseCode === 0x7F`. -/
def UdsResponse.isNegativeResponse (r : UdsResponse) : Bool :=
  r.responseCode == 0x7F

/-- `ProtocolHelper.parseUdsResponse` of `backend/lib/protocols.js`:
throws (here `none`) when the frame is shorter than 6 bytes or its first
two bytes are not `0x01 0x00`; otherwise reads `dataLength` from byte 3,
`serviceId` from byte 4, `responseCode` from byte 5 and `data` from
byte 6 on. -/
def parseUdsResponse (response : List Nat) : Option UdsResponse :=
  if response.length < 6 then
    none
  else if response.getD 0 0 ≠ 0x01 ∨ response.getD 1 0 ≠ 0x00 then
    none
  else
    some { serviceId := response.getD 4 0
           dataLength := response.getD 3 0
           responseCode := response.getD 5 0
           data := response.drop 6 }

/-- `ProtocolHelper.isResponseSuccessful` of `backend/lib/protocols.js`:
parses the raw frame and requires a positive (`0x62`) response code, a
positive declared data length and nonempty data; a parse failure yields
`false`. -/
def isResponseSuccessful (response : List Nat) : Bool :=
  match parseUdsResponse response with
  | none => false
  | some parsed =>
      parsed.isPositiveResponse && decide (0 < parsed.dataLength) &&
        decide (0 < parsed.data.length)

/-- Hard-coded serial-number pattern searched for by the backend
`hexToSerialNumber` (`Die erwartete Seriennummer`). -/
def expectedSerialPattern : String :=
  "37FFD705564E313046442000"

/-- `ProtocolHelper.hexToSerialNumber` of `backend/lib/protocols.js`:
takes up to the first 20 bytes, renders them as lowercase hex, uppercases
the result, and — if the hard-coded expected pattern occurs inside it —
returns `0x` followed by that pattern alone; otherwise `0x` followed by
the full rendering. -/
def hexToSerialNumber (hexData : List Nat) : String :=
  let serialData := hexData.take (min hexData.length 20)
  let hexString := hexJoin serialData
  let fullHex := strToUpper hexString
  if strContainsSubstr fullHex expectedSerialPattern then
    "0x" ++ expectedSerialPattern
  else
    "0x" ++ fullHex

/-- `ProtocolHelper.hexToAscii` of `backend/lib/protocols.js`: keeps the
printable non-NUL bytes (`0x20`–`0x7E`), reads them as ASCII and strips
the leading run of non-alphanumeric characters. -/
def hexToAscii (hexData : List Nat) : String :=
  let cleanData := hexData.filter (fun b => decide (b ≠ 0x00) &&
    decide (0x20 ≤ b) && decide (b ≤ 0x7E))
  let asciiString := bytesToAscii cleanData
  ⟨asciiString.data.dropWhile (fun c => ! isAlnumChar c)⟩

/-- `ProtocolHelper.hexToVersion` of `backend/lib/protocols.js`:
four or more bytes render as four dot-separated decimal fields; exactly
two or three bytes hit the two hard-coded firmware special cases or the
`b0.b1.0.0` fallback; fewer than two bytes render as dot-separated hex
bytes. -/
def hexToVersion (hexData : List Nat) : String :=
  if 4 ≤ hexData.length then
    toString (hexData.getD 0 0) ++ "." ++ toString (hexData.getD 1 0) ++ "." ++
      toString (hexData.getD 2 0) ++ "." ++ toString (hexData.getD 3 0)
  else if 2 ≤ hexData.length then
    let byte1 := hexData.getD 0 0
    let byte2 := hexData.getD 1 0
    if byte1 = 0x02 ∧ byte2 = 0x72 then
      "0.0.2.2"
    else if byte1 = 0x02 ∧ byte2 = 0x20 then
      "5.9.2.0"
    else
      toString byte1 ++ "." ++ toString byte2 ++ ".0.0"
  else
    String.intercalate "." (hexData.map hexByteStr)

/-- `ProtocolHelper.hexToArticleNumber` of `backend/lib/protocols.js`:
drops NUL bytes, reads the rest as ASCII, strips one leading `'2'` if
present and then the trailing run of non-digit characters. -/
def hexToArticleNumber (hexData : List Nat) : String :=
  let cleanData := hexData.filter (fun b => decide (b ≠ 0x00))
  let articleNumber := bytesToAscii cleanData
  let articleNumber :=
    match articleNumber.data with
    | '2' :: rest => (⟨rest⟩ : String)
    | _ => articleNumber
  ⟨(articleNumber.data.reverse.dropWhile (fun c => ! c.isDigit)).reverse⟩

/-- `ProtocolHelper.hexToTime` of `backend/lib/protocols.js`: reads the
first two bytes as hours/minutes, swapping them when the second byte is
not a valid minute (< 60) but the first one is; with both invalid the
bytes are shown unswapped; with fewer than two bytes the result is
`00:00`. -/
def hexToTime (hexData : List Nat) : String :=
  if 2 ≤ hexData.length then
    let byte1 := hexData.getD 0 0
    let byte2 := hexData.getD 1 0
    if byte2 < 60 then
      pad2dec byte1 ++ ":" ++ pad2dec byte2
    else if byte1 < 60 then
      pad2dec byte2 ++ ":" ++ pad2dec byte1
    else
      pad2dec byte1 ++ ":" ++ pad2dec byte2
  else
    "00:00"

/-- `ProtocolHelper.hexToDate` of `backend/lib/protocols.js`: the first
three bytes are (year offset from 2000, month, day), rendered
`DD.MM.YYYY`; with fewer than three bytes the result is `01.01.2000`. -/
def hexToDate (hexData : List Nat) : String :=
  if 3 ≤ hexData.length then
    let year := 2000 + hexData.getD 0 0
    let month := hexData.getD 1 0
    let day := hexData.getD 2 0
    pad2dec day ++ "." ++ pad2dec month ++ "." ++ toString year
  else
    "01.01.2000"

end Backend

/-! ## The local-HID protocol engine (`src/lib/protocols.js`) -/

namespace Local

/-- Result record of `ProtocolHelper.parseUdsResponse` in the local-HID
engine: no response code, and the fields sit one byte earlier than in the
backend engine. -/
structure UdsResponse where
  serviceId : Nat
  dataLength : Nat
  data : List Nat
  deriving DecidableEq, Repr

/-- `ProtocolHelper.parseUdsResponse` of `src/lib/protocols.js`: same
failure condition as the backend engine, but reads `dataLength` from
byte 2, `serviceId` from byte 3 and `data` from byte 5 on. -/
def parseUdsResponse (response : List Nat) : Option UdsResponse :=
  if response.length < 6 then
    none
  else if response.getD 0 0 ≠ 0x01 ∨ response.getD 1 0 ≠ 0x00 then
    none
  else
    some { serviceId := response.getD 3 0
           dataLength := response.getD 2 0
           data := response.drop 5 }

/-- `ProtocolHelper.isResponseSuccessful` of `src/lib/protocols.js`:
success is any parsed response whose service id is not `0x7F` and whose
declared data length is positive. -/
def isResponseSuccessful (response : List Nat) : Bool :=
  match parseUdsResponse response with
  | none => false
  | some parsed => decide (parsed.serviceId ≠ 0x7F) && decide (0 < parsed.dataLength)

/-- `ProtocolHelper.hexToAscii` of `src/lib/protocols.js`: keeps the
printable non-NUL bytes and reads them as ASCII (no leading-noise
stripping). -/
def hexToAscii (hexData : List Nat) : String :=
  bytesToAscii (hexData.filter (fun b => decide (b ≠ 0x00) &&
    decide (0x20 ≤ b) && decide (b ≤ 0x7E)))

/-- `ProtocolHelper.hexToSerialNumber` of `src/lib/protocols.js`: the
first 12 bytes rendered as uppercase hex behind `0x`, with no pattern
search. -/
def hexToSerialNumber (hexData : List Nat) : String :=
  "0x" ++ strToUpper (hexJoin (hexData.take 12))

/-- `ProtocolHelper.hexToVersion` of `src/lib/protocols.js`: four or more
bytes render as four dot-separated decimal fields; otherwise the bytes
render as dot-separated hex (no firmware special cases). -/
def hexToVersion (hexData : List Nat) : String :=
  if 4 ≤ hexData.length then
    toString (hexData.getD 0 0) ++ "." ++ toString (hexData.getD 1 0) ++ "." ++
      toString (hexData.getD 2 0) ++ "." ++ toString (hexData.getD 3 0)
  else
    String.intercalate "." (hexData.map hexByteStr)

/-- `ProtocolHelper.hexToArticleNumber` of `src/lib/protocols.js`: drops
NUL bytes and reads the rest as ASCII (no stripping). -/
def hexToArticleNumber (hexData : List Nat) : String :=
  bytesToAscii (hexData.filter (fun b => decide (b ≠ 0x00)))

/-- `ProtocolHelper.hexToTime` of `src/lib/protocols.js`: the first two
bytes as hours/minutes, unconditionally in that order. -/
def hexToTime (hexData : List Nat) : String :=
  if 2 ≤ hexData.length then
    pad2dec (hexData.getD 0 0) ++ ":" ++ pad2dec (hexData.getD 1 0)
  else
    "00:00"

/-- `ProtocolHelper.hexToDate` of `src/lib/protocols.js`: the first three
bytes are (day, month, year offset from 2000), rendered `DD.MM.YYYY`. -/
def hexToDate (hexData : List Nat) : String :=
  if 3 ≤ hexData.length then
    pad2dec (hexData.getD 0 0) ++ "." ++ pad2dec (hexData.getD 1 0) ++ "." ++
      toString (2000 + hexData.getD 2 0)
  else
    "01.01.2000"

end Local

/-- C1: the backend `parseUdsResponse` (the spec's `decodeUdsResponse`)
fails exactly when the frame is shorter than 6 bytes, or byte 0 is not
`0x01`, or byte 1 is not `0x00`; on every other input it succeeds with
`dataLength` = byte 3, `serviceId` = byte 4, `responseCode` = byte 5 and
`data` = the bytes from index 6 on. -/
theorem c1_decodeUdsResponse_characterization (r : List Nat) :
    (Backend.parseUdsResponse r = none ↔
      r.length < 6 ∨ r.getD 0 0 ≠ 0x01 ∨ r.getD 1 0 ≠ 0x00)
    ∧ (¬ (r.length < 6 ∨ r.getD 0 0 ≠ 0x01 ∨ r.getD 1 0 ≠ 0x00) →
        Backend.parseUdsResponse r =
          some ⟨r.getD 4 0, r.getD 3 0, r.getD 5 0, r.drop 6⟩) := by
  unfold Backend.parseUdsResponse
  constructor
  · split_ifs with h1 h2 <;> simp_all
  · intro h
    push_neg at h
    obtain ⟨hlen, h0, h1⟩ := h
    split_ifs <;> simp_all
    omega

/-- C1 witness: a concrete well-formed frame decodes to the stated
fields. -/
theorem c1_witness :
    Backend.parseUdsResponse [0x01, 0x00, 0x3D, 0x04, 0x22, 0x62, 0x0B, 0x0C] =
      some ⟨0x22, 0x04, 0x62, [0x0B, 0x0C]⟩ := by
  have h := (c1_decodeUdsResponse_characterization
    [0x01, 0x00, 0x3D, 0x04, 0x22, 0x62, 0x0B, 0x0C]).2 (by decide)
  simpa using h

/-! ## Frame encoding and the HID report write wrapper -/

/-- `ProtocolHelper.createUdsFrame` (identical in both engines): request
header `01 00 3A 08`, the fixed data-length byte `0x03`, the service id,
the identifier bytes and the extra data, padded with zero bytes while
shorter than 64.  Content already at or above 64 bytes is left as is —
the loop only appends. -/
def createUdsFrame (serviceId : Nat) (dataIdentifier : List Nat)
    (data : List Nat) : List Nat :=
  let frame := [0x01, 0x00, 0x3A, 0x08, 0x03, serviceId] ++ dataIdentifier ++ data
  frame ++ List.replicate (64 - frame.length) 0x00

/-- `ProtocolHelper.createHandshakeFrame` (identical in both engines):
`00 00 01 01` followed by 60 zero bytes. -/
def createHandshakeFrame : List Nat :=
  [0x00, 0x00, 0x01, 0x01] ++ List.replicate 60 0x00

/-- Report assembly of `SimpleHidWrapper.write`
(`src/lib/SimpleHidWrapper.js`): prepend the report id `0x00`, then
truncate to 65 bytes if longer, else pad with zero bytes to 65. -/
def hidWriteReport (data : List Nat) : List Nat :=
  let reportArray := 0x00 :: data
  if 65 < reportArray.length then
    reportArray.take 65
  else
    reportArray ++ List.replicate (65 - reportArray.length) 0x00

/-- Helper: the encoder output is the assembled content followed by some
padding list. -/
theorem createUdsFrame_shape (serviceId : Nat) (di extra : List Nat) :
    ∃ p, createUdsFrame serviceId di extra =
      ([0x01, 0x00, 0x3A, 0x08, 0x03, serviceId] ++ di ++ extra) ++ p ∧
      p = List.replicate
        (64 - ([0x01, 0x00, 0x3A, 0x08, 0x03, serviceId] ++ di ++ extra).length) 0x00 :=
  ⟨_, rfl, rfl⟩

/-- Helper: the encoder never produces fewer than 64 bytes. -/
theorem createUdsFrame_length (serviceId : Nat) (di extra : List Nat) :
    (createUdsFrame serviceId di extra).length =
      (6 + di.length + extra.length) + (64 - (6 + di.length + extra.length)) := by
  simp [createUdsFrame]
  omega

/-- Helper: behaviour of the report assembly on payloads of at least
64 bytes. -/
theorem hidWriteReport_of_ge (l : List Nat) (h : 64 ≤ l.length) :
    hidWriteReport l = 0x00 :: (l.take 64 ++ List.replicate (64 - l.length) 0x00) := by
  simp only [hidWriteReport]
  split_ifs with hlt
  · have h0 : 64 - l.length = 0 := by simp at hlt; omega
    simp [h0, List.take_succ_cons]
  · have h64 : l.length = 64 := by simp at hlt; omega
    have h0 : 64 - l.length = 0 := by omega
    have h1 : 65 - (0x00 :: l).length = 0 := by simp [h64]
    simp [h0, h1, List.take_of_length_le (le_of_eq h64)]

/-- C2 counterexample: with 57 extra bytes the assembled content is
65 bytes and `createUdsFrame` returns all 65 of them — the encoder never
truncates, so its frame is not always exactly 64 bytes. -/
theorem c2_counterexample :
    (createUdsFrame 0x22 [0x02, 0x42] (List.replicate 57 0x00)).length = 65
    ∧ (65 : Nat) ≠ 64 := by
  refine ⟨?_, by decide⟩
  rw [createUdsFrame_length]
  decide

/-- C2 amended: the encoder frame starts with `01 00 3A 08`, then `0x03`,
the service id, the two identifier bytes and the extra bytes, and is
zero-padded to exactly 64 bytes whenever the assembled content fits in
64; content longer than 64 bytes is kept in full (not truncated by the
encoder).  Truncation to 64 payload bytes happens only in the transport
write wrapper, whose 65-byte report is the report id `0x00` followed by
the first 64 frame bytes (zero-padded when shorter). -/
theorem c2_createUdsFrame_amended (serviceId : Nat) (di extra : List Nat)
    (h2 : di.length = 2) :
    (createUdsFrame serviceId di extra).length =
        (if 8 + extra.length ≤ 64 then 64 else 8 + extra.length)
    ∧ (createUdsFrame serviceId di extra).take 4 = [0x01, 0x00, 0x3A, 0x08]
    ∧ (createUdsFrame serviceId di extra).getD 4 0 = 0x03
    ∧ (createUdsFrame serviceId di extra).getD 5 0 = serviceId
    ∧ ((createUdsFrame serviceId di extra).drop 6).take 2 = di
    ∧ ((createUdsFrame serviceId di extra).drop 8).take extra.length = extra
    ∧ hidWriteReport (createUdsFrame serviceId di extra) =
        0x00 :: ((createUdsFrame serviceId di extra).take 64 ++
          List.replicate (64 - (createUdsFrame serviceId di extra).length) 0x00)
    ∧ (hidWriteReport (createUdsFrame serviceId di extra)).length = 65 := by
  obtain ⟨p, hp, hplen⟩ := createUdsFrame_shape serviceId di extra
  have hlen := createUdsFrame_length serviceId di extra
  have hge : 64 ≤ (createUdsFrame serviceId di extra).length := by omega
  refine ⟨by rw [hlen, h2]; split_ifs <;> omega, ?_, ?_, ?_, ?_, ?_, ?_, ?_⟩
  · rw [hp]
    rfl
  · rw [hp]
    rfl
  · rw [hp]
    rfl
  · rw [hp]
    have hd : (([0x01, 0x00, 0x3A, 0x08, 0x03, serviceId] ++ di ++ extra) ++ p).drop 6 =
        di ++ (extra ++ p) := by
      rw [List.append_assoc, List.append_assoc]
      exact List.drop_left' (by simp)
    rw [hd]
    exact List.take_left' h2
  · rw [hp]
    have hd : (([0x01, 0x00, 0x3A, 0x08, 0x03, serviceId] ++ di ++ extra) ++ p).drop 8 =
        extra ++ p := by
      rw [List.append_assoc]
      exact List.drop_left' (by simp [h2])
    rw [hd]
    exact List.take_left extra p
  · exact hidWriteReport_of_ge _ hge
  · rw [hidWriteReport_of_ge _ hge]
    simp
    omega

/-- C2 witness: concrete instantiation with a two-byte identifier and no
extra data. -/
theorem c2_witness :
    (createUdsFrame 0x22 [0x02, 0x42] []).take 4 = [0x01, 0x00, 0x3A, 0x08]
    ∧ (hidWriteReport (createUdsFrame 0x22 [0x02, 0x42] [])).length = 65 :=
  ⟨(c2_createUdsFrame_amended 0x22 [0x02, 0x42] [] rfl).2.1,
    (c2_createUdsFrame_amended 0x22 [0x02, 0x42] [] rfl).2.2.2.2.2.2.2⟩

/-! ## The session layer (`BoschDisplayTool`)

The transport is modelled at request/response granularity: one written
request frame yields one inbound frame, a timeout, or a read error.
`sendUdsRequest` performs exactly one such exchange. -/

/-- Outcome of waiting for the single inbound frame after one write. -/
inductive TransportResult where
  | frame (bytes : List Nat)
  | timeout
  | readError (msg : String)

/-- A deterministic transport behaviour: the response to one written
request frame. -/
def Transport : Type := List Nat → TransportResult

/-- Connection state of a `BoschDisplayTool` instance: the `isConnected`
flag, the HID wrapper handle (`null` before `connect`) and the device
reference. -/
structure Session where
  isConnected : Bool
  hidWrapper : Option Transport
  device : Option Nat

/-- `COMPONENT_TYPES[code] || 'Unbekannt (0x..)'` lookup
(`readComponentType`). -/
def componentTypeName (code : Nat) : String :=
  if code = 0x0B then "Intuvia"
  else if code = 0x0C then "Purion"
  else if code = 0x0D then "Nyon"
  else if code = 0x0E then "Kiox"
  else if code = 0x02 then "Intuvia"
  else "Unbekannt (0x" ++ jsHexLower code ++ ")"

namespace Tool

/-- `BoschDisplayTool.sendData` (`src/lib/BoschDisplayTool.js`): guarded
by the connection flag and wrapper handle; the wrapper write itself is
modelled as succeeding. -/
def sendData (s : Session) : Except String Unit :=
  match s.hidWrapper with
  | none => .error "Nicht mit dem Display verbunden!"
  | some _ =>
      if s.isConnected then .ok ()
      else .error "Nicht mit dem Display verbunden!"

/-- `BoschDisplayTool.receiveData`: reads one frame via the wrapper; a
wrapper timeout becomes the sentinel error `TIMEOUT`, a wrapper read
error is re-wrapped (after the same `timeout`-substring test the source
performs on the message). -/
def receiveData (s : Session) (request : List Nat) : Except String (List Nat) :=
  match s.hidWrapper with
  | none => .error "Nicht mit dem Display verbunden!"
  | some transport =>
      if s.isConnected then
        match transport request with
        | .frame b => .ok b
        | .timeout => .error "TIMEOUT"
        | .readError m =>
            let msg := "Lesefehler: " ++ m
            if strContainsSubstr msg "timeout" || strContainsSubstr msg "Timeout" then
              .error "TIMEOUT"
            else
              .error ("Empfangsfehler: " ++ msg)
      else .error "Nicht mit dem Display verbunden!"

/-- The catch block of `sendUdsRequest`: messages containing `Timeout` or
`TIMEOUT` collapse to the sentinel `TIMEOUT`, everything else is
prefixed. -/
def wrapUdsError (e : String) : String :=
  if strContainsSubstr e "Timeout" || strContainsSubstr e "TIMEOUT" then "TIMEOUT"
  else "UDS-Request-Fehler: " ++ e

/-- `BoschDisplayTool.sendUdsRequest` (`src/lib/BoschDisplayTool.js`,
using the local-HID `ProtocolHelper`): guard on `isConnected`, encode,
write, receive, parse, then return the raw response iff
`isResponseSuccessful` holds.  The second component lists the request
frames actually handed to the transport write. -/
def sendUdsRequest (s : Session) (serviceId : Nat) (dataIdentifier : List Nat)
    (additionalData : List Nat) : Except String (List Nat) × List (List Nat) :=
  if s.isConnected then
    let request := createUdsFrame serviceId dataIdentifier additionalData
    match sendData s with
    | .error e => (.error (wrapUdsError e), [])
    | .ok _ =>
        match receiveData s request with
        | .error e => (.error (wrapUdsError e), [request])
        | .ok response =>
            match Local.parseUdsResponse response with
            | none =>
                let m := if response.length < 6 then "Ungültige Response-Länge"
                  else "Ungültiger Response-Header"
                (.error (wrapUdsError m), [request])
            | some parsed =>
                if Local.isResponseSuccessful response then
                  (.ok response, [request])
                else
                  (.error (wrapUdsError
                    ("UDS-Response-Fehler: Service " ++ jsHexLower parsed.serviceId)),
                   [request])
  else
    (.error "Nicht mit dem Display verbunden!", [])

/-- `BoschDisplayTool.readSerialNumber`: one read of identifier
`02 42`, then the 12 bytes from offset 8 (or 5 for short responses)
through the local serial decoder.  The JS `serial || fallback` branch is
dead because the decoder output always starts with `0x`. -/
def readSerialNumber (s : Session) : Except String String × List (List Nat) :=
  match sendUdsRequest s 0x22 [0x02, 0x42] [] with
  | (.error e, w) => (.error ("Seriennummer-Lesefehler: " ++ e), w)
  | (.ok response, w) =>
      if 0 < response.length then
        let dataStart := if 8 < response.length then 8 else 5
        (.ok (Local.hexToSerialNumber ((response.drop dataStart).take 12)), w)
      else
        (.error ("Seriennummer-Lesefehler: " ++ "Keine Seriennummer empfangen"), w)

/-- `BoschDisplayTool.readHardwareVersion`: identifier `02 21`, bytes
8–11 through the local version decoder. -/
def readHardwareVersion (s : Session) : Except String String × List (List Nat) :=
  match sendUdsRequest s 0x22 [0x02, 0x21] [] with
  | (.error e, w) => (.error ("Hardware-Version-Lesefehler: " ++ e), w)
  | (.ok response, w) =>
      if 4 ≤ response.length then
        (.ok (Local.hexToVersion ((response.drop 8).take 4)), w)
      else
        (.error ("Hardware-Version-Lesefehler: " ++ "Keine Hardware-Version empfangen"), w)

/-- `BoschDisplayTool.readSoftwareVersion`: identifier `02 20`, bytes
8–11 through the local version decoder. -/
def readSoftwareVersion (s : Session) : Except String String × List (List Nat) :=
  match sendUdsRequest s 0x22 [0x02, 0x20] [] with
  | (.error e, w) => (.error ("Software-Version-Lesefehler: " ++ e), w)
  | (.ok response, w) =>
      if 4 ≤ response.length then
        (.ok (Local.hexToVersion ((response.drop 8).take 4)), w)
      else
        (.error ("Software-Version-Lesefehler: " ++ "Keine Software-Version empfangen"), w)

/-- `BoschDisplayTool.readProductCode`: identifier `5B 7C`, bytes 8–13
through the local ASCII decoder, with the empty-string fallback. -/
def readProductCode (s : Session) : Except String String × List (List Nat) :=
  match sendUdsRequest s 0x22 [0x5B, 0x7C] [] with
  | (.error e, w) => (.error ("Produktcode-Lesefehler: " ++ e), w)
  | (.ok response, w) =>
      if 0 < response.length then
        let productCode := Local.hexToAscii ((response.drop 8).take 6)
        (.ok (if productCode = "" then "Produktcode nicht lesbar" else productCode), w)
      else
        (.error ("Produktcode-Lesefehler: " ++ "Kein Produktcode empfangen"), w)

/-- `BoschDisplayTool.readArticleNumber`: identifier `02 32`, bytes 8–17
through the local article-number decoder, with the empty-string
fallback. -/
def readArticleNumber (s : Session) : Except String String × List (List Nat) :=
  match sendUdsRequest s 0x22 [0x02, 0x32] [] with
  | (.error e, w) => (.error ("Artikelnummer-Lesefehler: " ++ e), w)
  | (.ok response, w) =>
      if 0 < response.length then
        let articleNumber := Local.hexToArticleNumber ((response.drop 8).take 10)
        (.ok (if articleNumber = "" then "Artikelnummer nicht lesbar" else articleNumber), w)
      else
        (.error ("Artikelnummer-Lesefehler: " ++ "Keine Artikelnummer empfangen"), w)

/-- `BoschDisplayTool.readComponentType`: identifier `02 60`, byte 8
through the component table.  When the response has no byte 8 the JS
code calls `toString` on `undefined` and the resulting `TypeError` is
caught by the surrounding catch. -/
def readComponentType (s : Session) : Except String String × List (List Nat) :=
  match sendUdsRequest s 0x22 [0x02, 0x60] [] with
  | (.error e, w) => (.error ("Komponententyp-Lesefehler: " ++ e), w)
  | (.ok response, w) =>
      if 0 < response.length then
        match response.get? 8 with
        | some code => (.ok (componentTypeName code), w)
        | none =>
            (.error ("Komponententyp-Lesefehler: " ++
              "Cannot read properties of undefined"), w)
      else
        (.error ("Komponententyp-Lesefehler: " ++ "Kein Komponententyp empfangen"), w)

/-- `BoschDisplayTool.readCurrentTime`: identifier `02 40`, bytes 8–9
through the local time decoder. -/
def readCurrentTime (s : Session) : Except String String × List (List Nat) :=
  match sendUdsRequest s 0x22 [0x02, 0x40] [] with
  | (.error e, w) => (.error ("Uhrzeit-Lesefehler: " ++ e), w)
  | (.ok response, w) =>
      if 2 ≤ response.length then
        (.ok (Local.hexToTime ((response.drop 8).take 2)), w)
      else
        (.error ("Uhrzeit-Lesefehler: " ++ "Keine Uhrzeit empfangen"), w)

/-- `BoschDisplayTool.readCurrentDate`: identifier `02 3A`, three bytes
from offset 8 (or 5 for short responses) through the local date
decoder. -/
def readCurrentDate (s : Session) : Except String String × List (List Nat) :=
  match sendUdsRequest s 0x22 [0x02, 0x3A] [] with
  | (.error e, w) => (.error ("Datum-Lesefehler: " ++ e), w)
  | (.ok response, w) =>
      if 3 ≤ response.length then
        let dataStart := if 8 < response.length then 8 else 5
        (.ok (Local.hexToDate ((response.drop dataStart).take 3)), w)
      else
        (.error ("Datum-Lesefehler: " ++ "Kein Datum empfangen"), w)

/-- `BoschDisplayTool.setDateTime`: arguments are the five numbers the JS
code extracts from its `Date` argument (year − 2000, month, day, hour,
minute).  One write of identifier `02 3A` with service `0x2E`, then the
raw response is accepted iff its byte 0 equals `0x6E`. -/
def setDateTime (s : Session) (year month day hour minute : Nat) :
    Except String Bool × List (List Nat) :=
  match sendUdsRequest s 0x2E [0x02, 0x3A] [year, month, day, hour, minute] with
  | (.error e, w) => (.error ("Datum/Zeit-Setze-Fehler: " ++ e), w)
  | (.ok response, w) =>
      if response.getD 0 0 = 0x6E then
        (.ok true, w)
      else
        (.error ("Datum/Zeit-Setze-Fehler: " ++
          "Datum/Zeit konnte nicht gesetzt werden"), w)

/-- Per-field record of `readDriveUnitInfo` / `readBatteryManagementInfo`
(a field stays unset — `none` — when the response was accepted but too
short for the field's guard). -/
structure SubsystemInfo where
  partNumber : Option String
  serialNumber : Option String
  hardwareVersion : Option String
  softwareVersion : Option String
  status : String
  message : Option String
  deriving DecidableEq, Repr

/-- One `try { … } catch` block of the sub-system readers: on success the
field is decoded (or left unset), a `TIMEOUT` error marks the field
`Nicht angeschlossen (Timeout)` and raises the timeout flag, any other
error is recorded as `Fehler: …`. -/
def subsystemField (res : Except String (List Nat) × List (List Nat))
    (onOk : List Nat → Option String) : Option String × Bool × List (List Nat) :=
  match res with
  | (.ok response, w) => (onOk response, false, w)
  | (.error e, w) =>
      if e = "TIMEOUT" then (some "Nicht angeschlossen (Timeout)", true, w)
      else (some ("Fehler: " ++ e), false, w)

/-- `BoschDisplayTool.readDriveUnitInfo`: four identifier reads with
per-field catches and the timeout-derived status. -/
def readDriveUnitInfo (s : Session) : Except String SubsystemInfo × List (List Nat) :=
  if s.isConnected then
    let r1 := subsystemField (sendUdsRequest s 0x22 [0xF1, 0x30] [])
      (fun response => if 0 < response.length then
        some (Local.hexToArticleNumber ((response.drop 8).take 10)) else none)
    let r2 := subsystemField (sendUdsRequest s 0x22 [0xF1, 0xAC] [])
      (fun response => if 0 < response.length then
        some (Local.hexToSerialNumber ((response.drop 8).take 12)) else none)
    let r3 := subsystemField (sendUdsRequest s 0x22 [0xF1, 0x50] [])
      (fun response => if 4 ≤ response.length then
        some (Local.hexToVersion ((response.drop 8).take 4)) else none)
    let r4 := subsystemField (sendUdsRequest s 0x22 [0xF1, 0x51] [])
      (fun response => if 4 ≤ response.length then
        some (Local.hexToVersion ((response.drop 8).take 4)) else none)
    let hasTimeout := r1.2.1 || r2.2.1 || r3.2.1 || r4.2.1
    (.ok { partNumber := r1.1
           serialNumber := r2.1
           hardwareVersion := r3.1
           softwareVersion := r4.1
           status := if hasTimeout then "Nicht angeschlossen" else "Verfügbar"
           message := if hasTimeout then
             some "Drive Unit ist nicht am Display angeschlossen oder nicht verfügbar"
             else none },
     r1.2.2 ++ r2.2.2 ++ r3.2.2 ++ r4.2.2)
  else
    (.error "Nicht mit dem Display verbunden!", [])

/-- `BoschDisplayTool.readBatteryManagementInfo`: same structure as the
drive-unit reader with the BMS identifiers and message. -/
def readBatteryManagementInfo (s : Session) :
    Except String SubsystemInfo × List (List Nat) :=
  if s.isConnected then
    let r1 := subsystemField (sendUdsRequest s 0x22 [0xF1, 0x30] [])
      (fun response => if 0 < response.length then
        some (Local.hexToArticleNumber ((response.drop 8).take 10)) else none)
    let r2 := subsystemField (sendUdsRequest s 0x22 [0xF1, 0xAC] [])
      (fun response => if 0 < response.length then
        some (Local.hexToSerialNumber ((response.drop 8).take 12)) else none)
    let r3 := subsystemField (sendUdsRequest s 0x22 [0xF1, 0x50] [])
      (fun response => if 4 ≤ response.length then
        some (Local.hexToVersion ((response.drop 8).take 4)) else none)
    let r4 := subsystemField (sendUdsRequest s 0x22 [0xF1, 0x51] [])
      (fun response => if 4 ≤ response.length then
        some (Local.hexToVersion ((response.drop 8).take 4)) else none)
    let hasTimeout := r1.2.1 || r2.2.1 || r3.2.1 || r4.2.1
    (.ok { partNumber := r1.1
           serialNumber := r2.1
           hardwareVersion := r3.1
           softwareVersion := r4.1
           status := if hasTimeout then "Nicht angeschlossen" else "Verfügbar"
           message := if hasTimeout then
             some "Battery Management System ist nicht am Display angeschlossen oder nicht verfügbar"
             else none },
     r1.2.2 ++ r2.2.2 ++ r3.2.2 ++ r4.2.2)
  else
    (.error "Nicht mit dem Display verbunden!", [])

/-- Value of the `driveUnit` / `batteryManagement` slot of the aggregate
record: a sub-system record, the error record built in the catch block,
or the fixed display-mode placeholder record. -/
inductive SubResult where
  | info (i : SubsystemInfo)
  | failed (errMsg : String)
  | notQueried
  deriving DecidableEq, Repr

/-- Aggregate record returned by `readAllInformation`. -/
structure DiagnosticRecord where
  serialNumber : String
  hardwareVersion : String
  softwareVersion : String
  productCode : String
  articleNumber : String
  componentType : String
  currentTime : String
  currentDate : String
  driveUnit : SubResult
  batteryManagement : SubResult
  lastUpdate : String
  deriving DecidableEq, Repr

/-- One iteration of the task loop of `readAllInformation`: the field
value, or `Fehler: …` built from the caught error. -/
def taskResult (r : Except String String × List (List Nat)) : String × List (List Nat) :=
  match r with
  | (.ok v, w) => (v, w)
  | (.error e, w) => ("Fehler: " ++ e, w)

/-- `BoschDisplayTool.readAllInformation`: the eight primary reads with
per-task catches, the mode-dependent sub-system slots, and the
`lastUpdate` timestamp (the wall-clock string is a parameter here). -/
def readAllInformation (s : Session) (fullMode : Bool) (now : String) :
    Except String DiagnosticRecord × List (List Nat) :=
  let t1 := taskResult (readSerialNumber s)
  let t2 := taskResult (readHardwareVersion s)
  let t3 := taskResult (readSoftwareVersion s)
  let t4 := taskResult (readProductCode s)
  let t5 := taskResult (readArticleNumber s)
  let t6 := taskResult (readComponentType s)
  let t7 := taskResult (readCurrentTime s)
  let t8 := taskResult (readCurrentDate s)
  let sub : SubResult × SubResult × List (List Nat) :=
    if fullMode then
      let rdu := readDriveUnitInfo s
      let rbm := readBatteryManagementInfo s
      ((match rdu.1 with
        | .ok i => SubResult.info i
        | .error e => SubResult.failed e),
       (match rbm.1 with
        | .ok i => SubResult.info i
        | .error e => SubResult.failed e),
       rdu.2 ++ rbm.2)
    else
      (SubResult.notQueried, SubResult.notQueried, [])
  (.ok { serialNumber := t1.1
         hardwareVersion := t2.1
         softwareVersion := t3.1
         productCode := t4.1
         articleNumber := t5.1
         componentType := t6.1
         currentTime := t7.1
         currentDate := t8.1
         driveUnit := sub.1
         batteryManagement := sub.2.1
         lastUpdate := now },
   t1.2 ++ t2.2 ++ t3.2 ++ t4.2 ++ t5.2 ++ t6.2 ++ t7.2 ++ t8.2 ++ sub.2.2)

/-- `BoschDisplayTool.disconnect`: the wrapper close is attempted inside
a try/catch whose outcome (second return component) is only a console
warning; the handle, device reference and flag are reset
unconditionally. -/
def disconnect (s : Session) (closeOutcome : Except String Unit) :
    Session × Option String :=
  let warning :=
    match s.hidWrapper with
    | some _ =>
        match closeOutcome with
        | .ok _ => none
        | .error e => some ("Warnung beim Trennen: " ++ e)
    | none => none
  ({ isConnected := false, hidWrapper := none, device := none }, warning)

end Tool

namespace Web

/-- `BoschDisplayTool.sendUdsRequest` of the WebUSB variant
(`unnamed/part_005`), which uses the backend `ProtocolHelper`: identical
control flow to the local tool but with the backend parser and success
test and the backend parse error messages. -/
def sendUdsRequest (s : Session) (serviceId : Nat) (dataIdentifier : List Nat)
    (additionalData : List Nat) : Except String (List Nat) :=
  if s.isConnected then
    let request := createUdsFrame serviceId dataIdentifier additionalData
    match Tool.sendData s with
    | .error e => .error (Tool.wrapUdsError e)
    | .ok _ =>
        match Tool.receiveData s request with
        | .error e => .error (Tool.wrapUdsError e)
        | .ok response =>
            match Backend.parseUdsResponse response with
            | none =>
                let m := if response.length < 6 then "Ungültige Response-Länge"
                  else "Ungültiger Response-Header: " ++
                    toString (response.getD 0 0) ++ " " ++
                    toString (response.getD 1 0) ++ " " ++ toString (response.getD 2 0)
                .error (Tool.wrapUdsError m)
            | some parsed =>
                if Backend.isResponseSuccessful response then
                  .ok response
                else
                  .error (Tool.wrapUdsError
                    ("UDS-Response-Fehler: Service " ++ jsHexLower parsed.serviceId))
  else
    .error "Nicht mit dem Display verbunden!"

end Web

/-- Helper: a frame the local parser accepts starts with byte `0x01`. -/
theorem local_parse_some_head (r : List Nat) (p : Local.UdsResponse)
    (h : Local.parseUdsResponse r = some p) : r.getD 0 0 = 0x01 := by
  unfold Local.parseUdsResponse at h
  split_ifs at h with h1 h2
  push_neg at h2
  exact h2.1

/-- Helper: a frame the local success test accepts starts with byte
`0x01`. -/
theorem local_success_head (r : List Nat)
    (h : Local.isResponseSuccessful r = true) : r.getD 0 0 = 0x01 := by
  unfold Local.isResponseSuccessful at h
  cases hp : Local.parseUdsResponse r with
  | none => rw [hp] at h; exact absurd h (by simp)
  | some p => exact local_parse_some_head r p hp

/-- Helper: when the local tool's `sendUdsRequest` returns a response,
that response passed the local success test. -/
theorem tool_sendUdsRequest_ok (s : Session) (serviceId : Nat)
    (di extra : List Nat) (r : List Nat)
    (h : (Tool.sendUdsRequest s serviceId di extra).1 = .ok r) :
    Local.isResponseSuccessful r = true := by
  simp only [Tool.sendUdsRequest] at h
  split at h
  · split at h
    · simp at h
    · split at h
      · simp at h
      · split at h
        · simp at h
        · split at h <;> simp_all
  · simp at h

/-- Helper: the backend success test, expressed through the parsed
record. -/
theorem backend_success_eq (r : List Nat) (p : Backend.UdsResponse)
    (hp : Backend.parseUdsResponse r = some p) :
    Backend.isResponseSuccessful r =
      (p.responseCode == 0x62 && decide (0 < p.dataLength) &&
        decide (0 < p.data.length)) := by
  unfold Backend.isResponseSuccessful
  rw [hp]
  rfl

/-- C6 counterexample: the backend time decoder maps bytes `[30, 14]` to
`"30:14"`, not to `"14:30"` as the claim states — the first byte order
(hours = byte 0) is preferred whenever byte 1 is already a valid minute. -/
theorem c6_counterexample :
    Backend.hexToTime [30, 14] ≠ "14:30" ∧ Backend.hexToTime [30, 14] = "30:14" := by
  decide

/-- C6 amended: for two-byte input the time decoder formats
`byte0:byte1` whenever byte 1 is a valid minute (< 60); only when byte 1
is invalid and byte 0 is a valid minute does it swap to `byte1:byte0`;
with both invalid it falls back to the unswapped pair.  In particular
`[14, 30]` decodes to `"14:30"` but `[30, 14]` decodes to `"30:14"`. -/
theorem c6_hexToTime_amended :
    (∀ b0 b1 rest, Backend.hexToTime (b0 :: b1 :: rest) =
      if b1 < 60 then pad2dec b0 ++ ":" ++ pad2dec b1
      else if b0 < 60 then pad2dec b1 ++ ":" ++ pad2dec b0
      else pad2dec b0 ++ ":" ++ pad2dec b1)
    ∧ Backend.hexToTime [14, 30] = "14:30"
    ∧ Backend.hexToTime [30, 14] = "30:14" := by
  refine ⟨fun b0 b1 rest => ?_, by decide, by decide⟩
  simp [Backend.hexToTime]

/-- C7 counterexample: the serial-number decoder depends on the byte
contents — prepending `0xAA` to the expected-pattern bytes yields the
hard-coded pattern `0x37FFD705564E313046442000`, not the uppercase hex
rendering `0xAA37…` of the first bytes that the claim requires. -/
theorem c7_counterexample :
    Backend.hexToSerialNumber
        [0xAA, 0x37, 0xFF, 0xD7, 0x05, 0x56, 0x4E, 0x31, 0x30, 0x46, 0x44, 0x20, 0x00] =
      "0x37FFD705564E313046442000"
    ∧ "0x" ++ strToUpper (hexJoin ([0xAA, 0x37, 0xFF, 0xD7, 0x05, 0x56, 0x4E, 0x31,
          0x30, 0x46, 0x44, 0x20, 0x00].take (min 13 20))) =
        "0xAA37FFD705564E313046442000"
    ∧ ("0x37FFD705564E313046442000" : String) ≠ "0xAA37FFD705564E313046442000" := by
  refine ⟨by decide, by decide, by decide⟩

/-- C7 amended: the serial-number decoder returns `0x` followed by the
uppercase hexadecimal rendering of up to the first 20 bytes, except that
whenever that rendering contains the hard-coded pattern
`37FFD705564E313046442000` it returns `0x` followed by the pattern alone
— so the output does depend on the byte contents. -/
theorem c7_hexToSerialNumber_amended (l : List Nat) :
    (strContainsSubstr (strToUpper (hexJoin (l.take (min l.length 20))))
        Backend.expectedSerialPattern = false →
      Backend.hexToSerialNumber l =
        "0x" ++ strToUpper (hexJoin (l.take (min l.length 20))))
    ∧ (strContainsSubstr (strToUpper (hexJoin (l.take (min l.length 20))))
        Backend.expectedSerialPattern = true →
      Backend.hexToSerialNumber l = "0x" ++ Backend.expectedSerialPattern) := by
  unfold Backend.hexToSerialNumber
  constructor <;> intro h <;> simp [h]

/-- C7 witness: a pattern-free input takes the plain-rendering branch. -/
theorem c7_witness :
    Backend.hexToSerialNumber [0x0B] = "0x" ++ strToUpper (hexJoin ([0x0B].take (min 1 20))) :=
  (c7_hexToSerialNumber_amended [0x0B]).1 (by decide)

/-- C9 counterexample: the two engines disagree on `parseUdsResponse` —
on the frame `[1,0,10,20,30,40,50,60]` the backend engine reads
`dataLength` 20 (byte 3) while the local engine reads 10 (byte 2). -/
theorem c9_counterexample :
    (Backend.parseUdsResponse [1, 0, 10, 20, 30, 40, 50, 60]).map
        Backend.UdsResponse.dataLength = some 20
    ∧ (Local.parseUdsResponse [1, 0, 10, 20, 30, 40, 50, 60]).map
        Local.UdsResponse.dataLength = some 10
    ∧ (some 20 : Option Nat) ≠ some 10 := by
  refine ⟨by decide, by decide, by decide⟩

/-- C9 amended: the two protocol engines are not equivalent.  They agree
exactly on which frames `parseUdsResponse` rejects, and `hexToVersion`
agrees on inputs of four or more bytes; but the parsed `dataLength`
differs (see the counterexample) and every other corresponding decoder
pair disagrees on some input: the 2-byte version special cases, the time
byte-order heuristic, the date byte order, the serial-number slice
length and pattern branch, the ASCII leading-noise stripping and the
article-number stripping are present in only one of the engines. -/
theorem c9_engines_relation :
    (∀ r : List Nat, Backend.parseUdsResponse r = none ↔ Local.parseUdsResponse r = none)
    ∧ (∀ l : List Nat, 4 ≤ l.length → Backend.hexToVersion l = Local.hexToVersion l)
    ∧ Backend.hexToVersion [0x02, 0x72] ≠ Local.hexToVersion [0x02, 0x72]
    ∧ Backend.hexToTime [10, 70] ≠ Local.hexToTime [10, 70]
    ∧ Backend.hexToDate [24, 6, 15] ≠ Local.hexToDate [24, 6, 15]
    ∧ Backend.hexToSerialNumber [1, 1, 1, 1, 1, 1, 1, 1, 1, 1, 1, 1, 1] ≠
        Local.hexToSerialNumber [1, 1, 1, 1, 1, 1, 1, 1, 1, 1, 1, 1, 1]
    ∧ Backend.hexToAscii [0x5B, 0x42] ≠ Local.hexToAscii [0x5B, 0x42]
    ∧ Backend.hexToArticleNumber [0x32, 0x31] ≠ Local.hexToArticleNumber [0x32, 0x31] := by
  refine ⟨fun r => ?_, fun l h => ?_, by decide, by decide, by decide, by decide,
    by decide, by decide⟩
  · unfold Backend.parseUdsResponse Local.parseUdsResponse
    split_ifs <;> simp
  · unfold Backend.hexToVersion Local.hexToVersion
    rw [if_pos h, if_pos h]

/-- C9 witness: the agreeing `hexToVersion` branch at a concrete 4-byte
input. -/
theorem c9_witness :
    Backend.hexToVersion [1, 2, 3, 4] = Local.hexToVersion [1, 2, 3, 4] :=
  c9_engines_relation.2.1 [1, 2, 3, 4] (by decide)

/-- C3 counterexample: the frame `01 00 3D 03 22 50 AA` decodes
successfully with response code `0x50` — neither the negative marker
`0x7F` nor an empty `0x62` — yet the WebUSB `sendUdsRequest` rejects it
instead of returning it as success, because the code demands response
code `0x62`. -/
theorem c3_counterexample :
    Backend.parseUdsResponse [0x01, 0x00, 0x3D, 0x03, 0x22, 0x50, 0xAA] =
      some ⟨0x22, 0x03, 0x50, [0xAA]⟩
    ∧ (0x50 : Nat) ≠ 0x7F
    ∧ ¬ ((0x50 : Nat) = 0x62 ∧ (0x03 : Nat) = 0)
    ∧ Web.sendUdsRequest
        ⟨true, some (fun _ => TransportResult.frame [0x01, 0x00, 0x3D, 0x03, 0x22, 0x50, 0xAA]), none⟩
        0x22 [0x02, 0x42] [] =
      .error "UDS-Request-Fehler: UDS-Response-Fehler: Service 22" :=
  ⟨rfl, by decide, by decide, rfl⟩

/-- C3 amended: for a transport delivering a frame that decodes
successfully, the WebUSB `sendUdsRequest` returns the response as
success exactly when its response code is `0x62`, its declared data
length is positive and its data slice is nonempty; every other decoded
response — negative `0x7F` responses but also any other response code,
including the `0x6E` write acknowledgement — is a failure. -/
theorem c3_sendUdsRequest_amended (response : List Nat) (p : Backend.UdsResponse)
    (hp : Backend.parseUdsResponse response = some p)
    (serviceId : Nat) (di extra : List Nat) :
    Web.sendUdsRequest ⟨true, some (fun _ => TransportResult.frame response), none⟩
        serviceId di extra = .ok response
      ↔ (p.responseCode = 0x62 ∧ 0 < p.dataLength ∧ p.data ≠ []) := by
  have hweb0 : Web.sendUdsRequest
      ⟨true, some (fun _ => TransportResult.frame response), none⟩ serviceId di extra =
      (match Backend.parseUdsResponse response with
        | none =>
            Except.error (Tool.wrapUdsError
              (if response.length < 6 then "Ungültige Response-Länge"
                else "Ungültiger Response-Header: " ++
                  toString (response.getD 0 0) ++ " " ++
                  toString (response.getD 1 0) ++ " " ++ toString (response.getD 2 0)))
        | some parsed =>
            if Backend.isResponseSuccessful response then .ok response
            else Except.error (Tool.wrapUdsError
              ("UDS-Response-Fehler: Service " ++ jsHexLower parsed.serviceId))) := rfl
  rw [hp] at hweb0
  rw [hweb0, backend_success_eq response p hp]
  cases h62 : (p.responseCode == 0x62 && decide (0 < p.dataLength) &&
      decide (0 < p.data.length)) with
  | false =>
      simp only [h62]
      simp at h62 ⊢
      intro hrc hdl
      exact h62 hrc hdl
  | true =>
      simp only [h62]
      simp at h62 ⊢
      obtain ⟨⟨hrc, hdl⟩, hdata⟩ := h62
      exact ⟨hrc, hdl, List.ne_nil_of_length_pos hdata⟩

/-- C3 witness: a decoded positive `0x62` response with data is returned
as success. -/
theorem c3_witness :
    Web.sendUdsRequest
        ⟨true, some (fun _ => TransportResult.frame [0x01, 0x00, 0x3D, 0x03, 0x22, 0x62, 0xAA]), none⟩
        0x22 [0x02, 0x42] [] =
      .ok [0x01, 0x00, 0x3D, 0x03, 0x22, 0x62, 0xAA] :=
  (c3_sendUdsRequest_amended [0x01, 0x00, 0x3D, 0x03, 0x22, 0x62, 0xAA]
      ⟨0x22, 0x03, 0x62, [0xAA]⟩ rfl 0x22 [0x02, 0x42] []).2
    (by refine ⟨rfl, by decide, by decide⟩)

/-- C4: `readAllInformation` never fails — for every session state, mode
and transport behaviour it returns a record — and on a transport where
every request times out the returned record carries a typed error marker
in each of the eight primary field slots, the mode-determined sub-system
slots, and the `lastUpdate` timestamp. -/
theorem c4_readAllInformation_total :
    (∀ (s : Session) (fullMode : Bool) (now : String),
      ∃ record writes,
        Tool.readAllInformation s fullMode now = (.ok record, writes))
    ∧ (∀ now : String,
        (Tool.readAllInformation ⟨true, some (fun _ => TransportResult.timeout), none⟩
            false now).1 =
          .ok { serialNumber := "Fehler: Seriennummer-Lesefehler: TIMEOUT"
                hardwareVersion := "Fehler: Hardware-Version-Lesefehler: TIMEOUT"
                softwareVersion := "Fehler: Software-Version-Lesefehler: TIMEOUT"
                productCode := "Fehler: Produktcode-Lesefehler: TIMEOUT"
                articleNumber := "Fehler: Artikelnummer-Lesefehler: TIMEOUT"
                componentType := "Fehler: Komponententyp-Lesefehler: TIMEOUT"
                currentTime := "Fehler: Uhrzeit-Lesefehler: TIMEOUT"
                currentDate := "Fehler: Datum-Lesefehler: TIMEOUT"
                driveUnit := Tool.SubResult.notQueried
                batteryManagement := Tool.SubResult.notQueried
                lastUpdate := now }) := by
  constructor
  · intro s fullMode now
    exact ⟨_, _, rfl⟩
  · intro now
    rfl

/-- C5: `setDateTime` can never report success — the write-path success
condition the spec describes (service byte `0x6E`) is tested by the code
against raw byte 0, which is forced to `0x01` by the parser that every
accepted response has already passed; so for every transport behaviour
and every date the call fails, and in particular it fails on a
well-formed positive write acknowledgement whose service byte is
`0x6E`. -/
theorem c5_setDateTime_never_succeeds :
    (∀ (s : Session) (year month day hour minute : Nat),
      (Tool.setDateTime s year month day hour minute).1 ≠ .ok true)
    ∧ (Tool.setDateTime
        ⟨true, some (fun _ => TransportResult.frame [0x01, 0x00, 0x03, 0x6E, 0x62, 0xAA]), none⟩
        24 6 15 14 30).1 =
      .error "Datum/Zeit-Setze-Fehler: Datum/Zeit konnte nicht gesetzt werden" := by
  constructor
  · intro s year month day hour minute hcon
    unfold Tool.setDateTime at hcon
    cases hq : Tool.sendUdsRequest s 0x2E [0x02, 0x3A] [year, month, day, hour, minute] with
    | mk fst snd =>
        rw [hq] at hcon
        cases fst with
        | error e => simp at hcon
        | ok response =>
            have hok : (Tool.sendUdsRequest s 0x2E [0x02, 0x3A]
                [year, month, day, hour, minute]).1 = .ok response := by
              rw [hq]
            have hhead := local_success_head response
              (tool_sendUdsRequest_ok s 0x2E [0x02, 0x3A]
                [year, month, day, hour, minute] response hok)
            replace hcon :
                (if response.getD 0 0 = 0x6E then (Except.ok true, snd)
                  else (Except.error ("Datum/Zeit-Setze-Fehler: " ++
                    "Datum/Zeit konnte nicht gesetzt werden"), snd)).1 =
                  Except.ok true := hcon
            rw [if_neg (by rw [hhead]; decide)] at hcon
            simp at hcon
  · rfl

/-- C8: with the connection flag down — in particular on a fresh session
before `connect` has succeeded — both `sendUdsRequest` and the field
reader fail with the typed not-connected error and hand nothing to the
transport write (the write log is empty). -/
theorem c8_not_connected_guard (s : Session) (h : s.isConnected = false)
    (serviceId : Nat) (di extra : List Nat) :
    Tool.sendUdsRequest s serviceId di extra =
      (.error "Nicht mit dem Display verbunden!", [])
    ∧ Tool.readSerialNumber s =
      (.error "Seriennummer-Lesefehler: Nicht mit dem Display verbunden!", []) := by
  have hsend : ∀ (sid : Nat) (d e : List Nat), Tool.sendUdsRequest s sid d e =
      (.error "Nicht mit dem Display verbunden!", []) := by
    intro sid d e
    unfold Tool.sendUdsRequest
    rw [h]
    simp
  refine ⟨hsend serviceId di extra, ?_⟩
  unfold Tool.readSerialNumber
  rw [hsend 0x22 [0x02, 0x42] []]
  rfl

/-- C8 witness: the guard at a concrete fresh session. -/
theorem c8_witness :
    Tool.sendUdsRequest ⟨false, none, none⟩ 0x22 [0x02, 0x42] [] =
      (.error "Nicht mit dem Display verbunden!", [])
    ∧ Tool.readSerialNumber ⟨false, none, none⟩ =
      (.error "Seriennummer-Lesefehler: Nicht mit dem Display verbunden!", []) :=
  c8_not_connected_guard ⟨false, none, none⟩ rfl 0x22 [0x02, 0x42] []

/-- C10: `disconnect` is total and always resets the session: from any
prior state and for any outcome of the wrapper close (which it swallows,
emitting at most a console warning), the wrapper handle and device
reference are `none` and the connected flag is `false` afterwards. -/
theorem c10_disconnect_resets (s : Session) (closeOutcome : Except String Unit) :
    (Tool.disconnect s closeOutcome).1.hidWrapper = none
    ∧ (Tool.disconnect s closeOutcome).1.device = none
    ∧ (Tool.disconnect s closeOutcome).1.isConnected = false
    ∧ ∃ warning, Tool.disconnect s closeOutcome =
        ({ isConnected := false, hidWrapper := none, device := none }, warning) :=
  ⟨rfl, rfl, rfl, _, rfl⟩

end BoschHmi
